import Mathlib

/-!
Shallow embedding of the heat-pump simulation core of
`src/web/src/HeatPumpCalculator.tsx` (the `calculate` handler of the
current component, v1.13, together with the parametric flow line of the
older component variant kept in the same file).

Numbers are embedded as exact rationals (`ℚ`); the source operates on
JavaScript numbers.  Timestamps are embedded pre-parsed: a sample carries
the month and day-of-month that the source extracts from the ISO string
via `new Date(...).getMonth() + 1` / `.getDate()`, plus the raw string
used for the reported maxima timestamps.  The cosmetic replacement of
`T` by a space when the result record is built is omitted, as is all
network and UI glue, which the simulation core does not depend on.
-/

namespace HeatPump

/-- A single hourly sample: pre-parsed month and day of the timestamp,
the raw timestamp string, and the outdoor temperature
(`null` in the source becomes `none`). -/
structure Sample where
  month : ℕ
  day : ℕ
  time : String
  temp : Option ℚ
  deriving DecidableEq, Repr

inductive CurveMode where
  | params
  | points
  deriving DecidableEq, Repr

inductive CalcMode where
  | physics
  | consumption
  deriving DecidableEq, Repr

inductive FuelType where
  | gas
  | oil
  deriving DecidableEq, Repr

/-- The configuration record consumed by `calculate`: the sticky form
fields of the component that the simulation core reads. -/
structure Config where
  eff : ℚ
  tempInnen : ℚ
  paramA : ℚ
  paramB : ℚ
  curveMode : CurveMode
  p1Out : ℚ
  p1Flow : ℚ
  p2Out : ℚ
  p2Flow : ℚ
  area : ℚ
  uVal : ℚ
  calcMode : CalcMode
  fuelType : FuelType
  fuelAmount : ℚ
  oldEff : ℚ
  heatStartD : ℕ
  heatStartM : ℕ
  heatEndD : ℕ
  heatEndM : ℕ
  deriving DecidableEq, Repr

/-- Typed failures of the simulation core: the early return on an empty
temperature series and the consumption-mode calibration failure. -/
inductive CalcError where
  | emptySeries
  | insufficientData
  deriving DecidableEq, Repr

/-- `checkInHeatingPeriod` (HeatPumpCalculator.tsx, lines 276–295):
encode the current date and both period boundaries as `month*100 + day`
and test interval membership, wrapping across the year boundary when
`startVal > endVal`. -/
def checkInHeatingPeriod (cfg : Config) (month day : ℕ) : Bool :=
  let currentVal := month * 100 + day
  let startVal := cfg.heatStartM * 100 + cfg.heatStartD
  let endVal := cfg.heatEndM * 100 + cfg.heatEndD
  if startVal ≤ endVal then
    decide (currentVal ≥ startVal ∧ currentVal ≤ endVal)
  else
    decide (currentVal ≥ startVal ∨ currentVal ≤ endVal)

/-- Gas amounts are already kWh; oil amounts are liters at 10 kWh/L
(lines 316–319). -/
def fuelKWh (cfg : Config) : ℚ :=
  match cfg.fuelType with
  | .gas => cfg.fuelAmount
  | .oil => cfg.fuelAmount * 10

/-- Calibration pre-pass (lines 298–304): sum of `tempInnen - tOut`
over non-null samples below the indoor temperature that lie in the
heating period. -/
def sumDegreeHours (cfg : Config) (samples : List Sample) : ℚ :=
  samples.foldl
    (fun acc s =>
      match s.temp with
      | none => acc
      | some tOut =>
          if tOut < cfg.tempInnen ∧ checkInHeatingPeriod cfg s.month s.day = true then
            acc + (cfg.tempInnen - tOut)
          else
            acc)
    0

/-- Heat-loss-coefficient resolution (lines 297–330): consumption mode
calibrates against degree-hours and fails on zero; physics mode is
`uVal * area`. -/
def resolveK (cfg : Config) (samples : List Sample) : Except CalcError ℚ :=
  match cfg.calcMode with
  | .consumption =>
      let s := sumDegreeHours cfg samples
      if s = 0 then
        .error .insufficientData
      else
        let totalHeatDemandKWh := fuelKWh cfg * cfg.oldEff
        .ok (totalHeatDemandKWh * 1000 / s)
  | .physics => .ok (cfg.uVal * cfg.area)

/-- Flow temperature (lines 349–361): two-point interpolation with a
degenerate-slope guard in points mode, `- tOut * paramA + paramB` in
params mode. -/
def flowTemp (cfg : Config) (tOut : ℚ) : ℚ :=
  match cfg.curveMode with
  | .points =>
      if |cfg.p2Out - cfg.p1Out| < 0.001 then
        (cfg.p1Flow + cfg.p2Flow) / 2
      else
        let slope := (cfg.p2Flow - cfg.p1Flow) / (cfg.p2Out - cfg.p1Out)
        cfg.p1Flow + (tOut - cfg.p1Out) * slope
  | .params => - tOut * cfg.paramA + cfg.paramB

/-- Parametric flow line of the older component variant kept in the same
source file (line 1008): `paramA * (tempInnen - tOut) + paramB`. -/
def flowTempParamsV2 (cfg : Config) (tOut : ℚ) : ℚ :=
  cfg.paramA * (cfg.tempInnen - tOut) + cfg.paramB

/-- Carnot COP (lines 363–374) on Celsius inputs: sentinel 99999 when
the absolute flow temperature does not exceed the absolute outdoor
temperature, else `flowK / (flowK - outK)`. -/
def copCarnot (tVorlauf tOut : ℚ) : ℚ :=
  let tVorlaufK := tVorlauf + 273.15
  let tOutK := tOut + 273.15
  if tVorlaufK ≤ tOutK then 99999 else tVorlaufK / (tVorlaufK - tOutK)

/-- Real COP (lines 376–377): `eff * copCarnot` floored at 1. -/
def copReal (eff cc : ℚ) : ℚ :=
  let r := eff * cc
  if r < 1 then 1 else r

/-- Electrical power (lines 379–386): zero above the 20000 COP ceiling,
else `qLoad / copReal`. -/
def pElec (qLoad cr : ℚ) : ℚ :=
  if cr > 20000 then 0 else qLoad / cr

/-- The mutable accumulators of the main loop (lines 263–271). -/
structure LoopState where
  totalHeatWh : ℚ
  totalElecWh : ℚ
  heatHours : ℕ
  maxHeatLoadW : ℚ
  maxHeatDate : String
  maxElecLoadW : ℚ
  maxElecDate : String
  maxElecTemp : ℚ
  deriving DecidableEq, Repr

def initState : LoopState :=
  { totalHeatWh := 0
    totalElecWh := 0
    heatHours := 0
    maxHeatLoadW := 0
    maxHeatDate := "-"
    maxElecLoadW := 0
    maxElecDate := "-"
    maxElecTemp := 0 }

/-- One iteration of the main loop (lines 332–398): null samples leave
the state untouched; a sample below the indoor temperature and inside
the heating period contributes load, flow temperature, COP, electrical
power, and updates the strict-greater maxima. -/
def loopStep (cfg : Config) (k : ℚ) (st : LoopState) (s : Sample) : LoopState :=
  match s.temp with
  | none => st
  | some tOut =>
      if tOut < cfg.tempInnen ∧ checkInHeatingPeriod cfg s.month s.day = true then
        let qLoad := k * (cfg.tempInnen - tOut)
        let st1 :=
          if qLoad > st.maxHeatLoadW then
            { st with maxHeatLoadW := qLoad, maxHeatDate := s.time }
          else
            st
        let tVorlauf := flowTemp cfg tOut
        let cc := copCarnot tVorlauf tOut
        let cr := copReal cfg.eff cc
        let pe := pElec qLoad cr
        let st2 :=
          { st1 with
              totalHeatWh := st1.totalHeatWh + qLoad
              totalElecWh := st1.totalElecWh + pe
              heatHours := st1.heatHours + 1 }
        if pe > st2.maxElecLoadW then
          { st2 with maxElecLoadW := pe, maxElecDate := s.time, maxElecTemp := tOut }
        else
          st2
      else
        st

def runLoop (cfg : Config) (k : ℚ) (samples : List Sample) : LoopState :=
  samples.foldl (loopStep cfg k) initState

/-- The result record built at lines 404–417 (fetch bookkeeping fields
omitted). -/
structure SimResult where
  hoursTotal : ℕ
  hoursHeating : ℕ
  heatKWh : ℚ
  elecKWh : ℚ
  jaz : ℚ
  maxHeatLoadW : ℚ
  maxHeatDate : String
  maxElecLoadW : ℚ
  maxElecDate : String
  maxElecTemp : ℚ
  deriving DecidableEq, Repr

/-- The simulation body after the empty-series guard (lines 263–417):
resolve the heat-loss coefficient, run the main loop, aggregate. -/
def simulateBody (cfg : Config) (samples : List Sample) : Except CalcError SimResult :=
  match resolveK cfg samples with
  | .error e => .error e
  | .ok k =>
      let st := runLoop cfg k samples
      let heatKWh := st.totalHeatWh / 1000
      let elecKWh := st.totalElecWh / 1000
      let jaz := if elecKWh > 0 then heatKWh / elecKWh else 0
      .ok
        { hoursTotal := samples.length
          hoursHeating := st.heatHours
          heatKWh := heatKWh
          elecKWh := elecKWh
          jaz := jaz
          maxHeatLoadW := st.maxHeatLoadW
          maxHeatDate := st.maxHeatDate
          maxElecLoadW := st.maxElecLoadW
          maxElecDate := st.maxElecDate
          maxElecTemp := st.maxElecTemp }

/-- The full engine entry (lines 257–417): the empty-series check at
lines 257–261 reports an error before the simulation body runs. -/
def calculate (cfg : Config) (samples : List Sample) : Except CalcError SimResult :=
  if samples.isEmpty then .error .emptySeries else simulateBody cfg samples

/-! Concrete inputs used to instantiate the claims below. -/

/-- Consumption-mode configuration of the calibration example:
Gas, `fuelAmount = 1000`, `oldSystemEfficiency = 0.9`, indoor 20 °C,
heating period Oct 1 – Apr 30. -/
def cfgC1 : Config :=
  { eff := 0.5, tempInnen := 20, paramA := 1, paramB := 22,
    curveMode := .params, p1Out := 20, p1Flow := 25, p2Out := -15, p2Flow := 55,
    area := 100, uVal := 0.5, calcMode := .consumption, fuelType := .gas,
    fuelAmount := 1000, oldEff := 0.9,
    heatStartD := 1, heatStartM := 10, heatEndD := 30, heatEndM := 4 }

/-- A January hour at 10 °C: indoor minus outdoor is exactly 10 K. -/
def sampleC1 : Sample := { month := 1, day := 15, time := "2024-01-15T00:00", temp := some 10 }

/-- Parametric configuration of the flow-curve example: `a = 1`,
`b = 30`, indoor 20 °C. -/
def cfgC2 : Config :=
  { eff := 0.5, tempInnen := 20, paramA := 1, paramB := 30,
    curveMode := .params, p1Out := 20, p1Flow := 25, p2Out := -15, p2Flow := 55,
    area := 100, uVal := 0.5, calcMode := .physics, fuelType := .gas,
    fuelAmount := 15000, oldEff := 0.85,
    heatStartD := 1, heatStartM := 10, heatEndD := 30, heatEndM := 4 }

/-- Configuration with the wrap-around heating period Oct 1 – Apr 30. -/
def cfgC5 : Config :=
  { eff := 0.5, tempInnen := 20, paramA := 1, paramB := 22,
    curveMode := .params, p1Out := 20, p1Flow := 25, p2Out := -15, p2Flow := 55,
    area := 100, uVal := 0.5, calcMode := .physics, fuelType := .gas,
    fuelAmount := 15000, oldEff := 0.85,
    heatStartD := 1, heatStartM := 10, heatEndD := 30, heatEndM := 4 }

/-- Degenerate two-point configuration: both points at outdoor 5 °C. -/
def cfgC6 : Config :=
  { eff := 0.5, tempInnen := 20, paramA := 1, paramB := 22,
    curveMode := .points, p1Out := 5, p1Flow := 30, p2Out := 5, p2Flow := 40,
    area := 100, uVal := 0.5, calcMode := .physics, fuelType := .gas,
    fuelAmount := 15000, oldEff := 0.85,
    heatStartD := 1, heatStartM := 10, heatEndD := 30, heatEndM := 4 }

/-- Non-degenerate two-point configuration: (20 °C, 25 °C) and
(−15 °C, 55 °C). -/
def cfgC6b : Config :=
  { eff := 0.5, tempInnen := 20, paramA := 1, paramB := 22,
    curveMode := .points, p1Out := 20, p1Flow := 25, p2Out := -15, p2Flow := 55,
    area := 100, uVal := 0.5, calcMode := .physics, fuelType := .gas,
    fuelAmount := 15000, oldEff := 0.85,
    heatStartD := 1, heatStartM := 10, heatEndD := 30, heatEndM := 4 }

/-- Physics-mode configuration with a negative U-value, giving the
negative heat-loss coefficient `uVal * area = -1`. -/
def cfgC7 : Config :=
  { eff := 1/1000, tempInnen := 20, paramA := 1, paramB := 22,
    curveMode := .params, p1Out := 20, p1Flow := 25, p2Out := -15, p2Flow := 55,
    area := 1, uVal := -1, calcMode := .physics, fuelType := .gas,
    fuelAmount := 15000, oldEff := 0.85,
    heatStartD := 1, heatStartM := 10, heatEndD := 30, heatEndM := 4 }

def sampleC7 : Sample := { month := 1, day := 15, time := "2024-01-15T01:00", temp := some 10 }

/-- The result of running the engine on `cfgC7` and `[sampleC7]`:
both energy totals are negative, so the `elecKWh > 0` test fails and
`jaz` is 0 although the denominator is nonzero. -/
def rC7 : SimResult :=
  { hoursTotal := 1, hoursHeating := 1, heatKWh := -1/100, elecKWh := -1/100, jaz := 0,
    maxHeatLoadW := 0, maxHeatDate := "-", maxElecLoadW := 0, maxElecDate := "-",
    maxElecTemp := 0 }

/-- Ordinary physics-mode configuration, `kLoad = 50`. -/
def cfgC8 : Config :=
  { eff := 1/2, tempInnen := 20, paramA := 1, paramB := 22,
    curveMode := .params, p1Out := 20, p1Flow := 25, p2Out := -15, p2Flow := 55,
    area := 100, uVal := 1/2, calcMode := .physics, fuelType := .gas,
    fuelAmount := 15000, oldEff := 0.85,
    heatStartD := 1, heatStartM := 10, heatEndD := 30, heatEndM := 4 }

/-- A sample with a null temperature. -/
def nsC8 : Sample := { month := 6, day := 1, time := "2024-06-01T00:00", temp := none }

/-- The result of running the engine on the single null sample:
it counts in `hoursTotal` and nowhere else. -/
def rC8 : SimResult :=
  { hoursTotal := 1, hoursHeating := 0, heatKWh := 0, elecKWh := 0, jaz := 0,
    maxHeatLoadW := 0, maxHeatDate := "-", maxElecLoadW := 0, maxElecDate := "-",
    maxElecTemp := 0 }

/-- Physics-mode configuration used on the empty series. -/
def cfgC9 : Config :=
  { eff := 1/2, tempInnen := 20, paramA := 1, paramB := 22,
    curveMode := .params, p1Out := 20, p1Flow := 25, p2Out := -15, p2Flow := 55,
    area := 100, uVal := 1/2, calcMode := .physics, fuelType := .gas,
    fuelAmount := 15000, oldEff := 0.85,
    heatStartD := 1, heatStartM := 10, heatEndD := 30, heatEndM := 4 }

/-- Physics-mode configuration with `kLoad = 50` and an efficiency
factor small enough that the real COP is floored at 1. -/
def cfgC10 : Config :=
  { eff := 1/1000, tempInnen := 20, paramA := 1, paramB := 22,
    curveMode := .params, p1Out := 20, p1Flow := 25, p2Out := -15, p2Flow := 55,
    area := 100, uVal := 1/2, calcMode := .physics, fuelType := .gas,
    fuelAmount := 15000, oldEff := 0.85,
    heatStartD := 1, heatStartM := 10, heatEndD := 30, heatEndM := 4 }

def sampleC10 : Sample := { month := 1, day := 15, time := "2024-01-15T02:00", temp := some 10 }

/-- The result of running the engine on `cfgC10` and `[sampleC10]`:
`qLoad = 500`, the real COP floors at 1, so `pElec = 500` as well. -/
def rC10 : SimResult :=
  { hoursTotal := 1, hoursHeating := 1, heatKWh := 1/2, elecKWh := 1/2, jaz := 1,
    maxHeatLoadW := 500, maxHeatDate := "2024-01-15T02:00", maxElecLoadW := 500,
    maxElecDate := "2024-01-15T02:00", maxElecTemp := 10 }

/-! Helper lemmas shared by the claim theorems. -/

/-- The calibration fold over `n` copies of one qualifying sample adds
`n` times its degree difference to the accumulator. -/
theorem sumDegreeHours_foldl_replicate (cfg : Config) (s : Sample) (t : ℚ)
    (ht : s.temp = some t) (hq : t < cfg.tempInnen)
    (hp : checkInHeatingPeriod cfg s.month s.day = true) :
    ∀ (n : ℕ) (acc : ℚ),
      List.foldl
        (fun acc s =>
          match s.temp with
          | none => acc
          | some tOut =>
              if tOut < cfg.tempInnen ∧ checkInHeatingPeriod cfg s.month s.day = true then
                acc + (cfg.tempInnen - tOut)
              else
                acc)
        acc (List.replicate n s) = acc + n * (cfg.tempInnen - t) := by
  intro n
  induction n with
  | zero => intro acc; simp
  | succ n ih =>
      intro acc
      rw [List.replicate_succ, List.foldl_cons, ht]
      simp only [hq, hp, and_self, if_true]
      rw [ih]
      push_cast
      ring

/-- The floored real COP is at least 1. -/
theorem one_le_copReal (e cc : ℚ) : 1 ≤ copReal e cc := by
  simp only [copReal]
  split_ifs with h
  · exact le_refl 1
  · exact not_lt.mp h

/-- Electrical power never exceeds a nonnegative load when the COP is
at least 1: the ceiling branch yields 0 and the division branch divides
by a value ≥ 1. -/
theorem pElec_le_qLoad (q cr : ℚ) (hq : 0 ≤ q) (hcr : 1 ≤ cr) : pElec q cr ≤ q := by
  simp only [pElec]
  split_ifs
  · exact hq
  · exact div_le_self hq hcr

/-- One loop iteration either leaves the running totals unchanged (null
sample, warm hour, or outside the heating period) or contributes one
hour, `qLoad`, and the matching `pElec`. -/
theorem loopStep_totals (cfg : Config) (k : ℚ) (st : LoopState) (s : Sample) :
    ((loopStep cfg k st s).totalHeatWh = st.totalHeatWh ∧
      (loopStep cfg k st s).totalElecWh = st.totalElecWh ∧
      (loopStep cfg k st s).heatHours = st.heatHours) ∨
    (∃ t, s.temp = some t ∧ t < cfg.tempInnen ∧
      (loopStep cfg k st s).totalHeatWh = st.totalHeatWh + k * (cfg.tempInnen - t) ∧
      (loopStep cfg k st s).totalElecWh =
        st.totalElecWh +
          pElec (k * (cfg.tempInnen - t)) (copReal cfg.eff (copCarnot (flowTemp cfg t) t)) ∧
      (loopStep cfg k st s).heatHours = st.heatHours + 1) := by
  cases hs : s.temp with
  | none => left; simp [loopStep, hs]
  | some t =>
      by_cases hcond : t < cfg.tempInnen ∧ checkInHeatingPeriod cfg s.month s.day = true
      · right
        refine ⟨t, rfl, hcond.1, ?_, ?_, ?_⟩ <;>
          · simp only [loopStep, hs, hcond, and_self, if_true]
            split_ifs <;> simp
      · left
        simp [loopStep, hs, hcond]

/-- Each loop iteration increments the heating-hours counter by at most
one. -/
theorem loopStep_heatHours_le (cfg : Config) (k : ℚ) (st : LoopState) (s : Sample) :
    (loopStep cfg k st s).heatHours ≤ st.heatHours + 1 := by
  rcases loopStep_totals cfg k st s with ⟨_, _, h⟩ | ⟨t, _, _, _, _, h⟩ <;> omega

/-- Over a whole series, the heating-hours counter grows by at most the
series length. -/
theorem foldl_heatHours_le (cfg : Config) (k : ℚ) :
    ∀ (l : List Sample) (st : LoopState),
      (List.foldl (loopStep cfg k) st l).heatHours ≤ st.heatHours + l.length := by
  intro l
  induction l with
  | nil => intro st; simp
  | cons a l ih =>
      intro st
      rw [List.foldl_cons]
      have h1 := ih (loopStep cfg k st a)
      have h2 := loopStep_heatHours_le cfg k st a
      simp only [List.length_cons]
      omega

/-- With a nonnegative heat-loss coefficient the electrical total never
overtakes the heat total. -/
theorem foldl_elec_le_heat (cfg : Config) (k : ℚ) (hk : 0 ≤ k) :
    ∀ (l : List Sample) (st : LoopState), st.totalElecWh ≤ st.totalHeatWh →
      (List.foldl (loopStep cfg k) st l).totalElecWh ≤
        (List.foldl (loopStep cfg k) st l).totalHeatWh := by
  intro l
  induction l with
  | nil => intro st h; simpa using h
  | cons a l ih =>
      intro st h
      rw [List.foldl_cons]
      refine ih _ ?_
      rcases loopStep_totals cfg k st a with ⟨hh, he, _⟩ | ⟨t, _, ht, hh, he, _⟩
      · rw [hh, he]; exact h
      · rw [hh, he]
        have hq : 0 ≤ k * (cfg.tempInnen - t) := mul_nonneg hk (by linarith)
        have hpe :
            pElec (k * (cfg.tempInnen - t)) (copReal cfg.eff (copCarnot (flowTemp cfg t) t)) ≤
              k * (cfg.tempInnen - t) :=
          pElec_le_qLoad _ _ hq (one_le_copReal _ _)
        linarith

/-- A successful engine run determines every field of the result from
the resolved coefficient and the loop state. -/
theorem calculate_ok_fields (cfg : Config) (samples : List Sample) (r : SimResult)
    (hr : calculate cfg samples = Except.ok r) :
    ∃ k, resolveK cfg samples = Except.ok k ∧
      r.hoursTotal = samples.length ∧
      r.hoursHeating = (runLoop cfg k samples).heatHours ∧
      r.heatKWh = (runLoop cfg k samples).totalHeatWh / 1000 ∧
      r.elecKWh = (runLoop cfg k samples).totalElecWh / 1000 ∧
      r.jaz = if r.elecKWh > 0 then r.heatKWh / r.elecKWh else 0 := by
  unfold calculate at hr
  by_cases he : samples.isEmpty
  · rw [if_pos he] at hr
    exact absurd hr (by simp)
  · rw [if_neg he] at hr
    unfold simulateBody at hr
    cases hk : resolveK cfg samples with
    | error e => rw [hk] at hr; exact absurd hr (by simp)
    | ok k =>
        rw [hk] at hr
        simp only [] at hr
        injection hr with hr
        subst hr
        exact ⟨k, rfl, rfl, rfl, rfl, rfl, rfl⟩

/-! Claim theorems. -/

/-- C1: In consumption mode, heat-loss-coefficient resolution fails
with `InsufficientDataError` exactly when the heating-period-filtered
degree-hour sum is zero; otherwise it returns
`fuelKWh * oldSystemEfficiency * 1000 / sumDegreeHours`, where
`fuelKWh` is the fuel amount for gas and ten times it for oil.  In
particular 100 qualifying hours of difference 10 with gas amount 1000
and old efficiency 0.9 give `kLoad = 900` W/K. -/
theorem consumption_calibration (cfg : Config) (samples : List Sample)
    (hmode : cfg.calcMode = CalcMode.consumption) :
    (resolveK cfg samples = Except.error CalcError.insufficientData ↔
      sumDegreeHours cfg samples = 0) ∧
    (sumDegreeHours cfg samples ≠ 0 →
      resolveK cfg samples =
        Except.ok (fuelKWh cfg * cfg.oldEff * 1000 / sumDegreeHours cfg samples)) ∧
    (cfg.fuelType = FuelType.gas → fuelKWh cfg = cfg.fuelAmount) ∧
    (cfg.fuelType = FuelType.oil → fuelKWh cfg = cfg.fuelAmount * 10) ∧
    resolveK cfgC1 (List.replicate 100 sampleC1) = Except.ok 900 := by
  have hsum : sumDegreeHours cfgC1 (List.replicate 100 sampleC1) = 1000 := by
    unfold sumDegreeHours
    rw [sumDegreeHours_foldl_replicate cfgC1 sampleC1 10 rfl
      (by norm_num [cfgC1, sampleC1])
      (by norm_num [checkInHeatingPeriod, cfgC1, sampleC1])]
    norm_num [cfgC1]
  refine ⟨?_, fun h => ?_, fun h => by simp [fuelKWh, h], fun h => by simp [fuelKWh, h], ?_⟩
  · unfold resolveK
    rw [hmode]
    by_cases h : sumDegreeHours cfg samples = 0
    · simp [h]
    · simp [h]
  · unfold resolveK
    rw [hmode]
    simp [h]
  · unfold resolveK
    rw [show cfgC1.calcMode = CalcMode.consumption from rfl]
    simp only [hsum]
    norm_num [fuelKWh, cfgC1]

/-- C1 witness: the calibration characterisation instantiated at the
concrete 100-hour gas example. -/
theorem consumption_calibration_witness :
    (resolveK cfgC1 (List.replicate 100 sampleC1) = Except.error CalcError.insufficientData ↔
      sumDegreeHours cfgC1 (List.replicate 100 sampleC1) = 0) ∧
    (sumDegreeHours cfgC1 (List.replicate 100 sampleC1) ≠ 0 →
      resolveK cfgC1 (List.replicate 100 sampleC1) =
        Except.ok
          (fuelKWh cfgC1 * cfgC1.oldEff * 1000 /
            sumDegreeHours cfgC1 (List.replicate 100 sampleC1))) ∧
    (cfgC1.fuelType = FuelType.gas → fuelKWh cfgC1 = cfgC1.fuelAmount) ∧
    (cfgC1.fuelType = FuelType.oil → fuelKWh cfgC1 = cfgC1.fuelAmount * 10) ∧
    resolveK cfgC1 (List.replicate 100 sampleC1) = Except.ok 900 :=
  consumption_calibration cfgC1 (List.replicate 100 sampleC1) rfl

/-- C2 counterexample: with `a = 1`, `b = 30`, indoor 20 °C and outdoor
−5 °C, the engine's parametric curve yields 35 °C, not the claimed
`a * (indoor − outdoor) + b = 55` °C: the current engine computes
`-outdoor * a + b`, ignoring the indoor temperature. -/
theorem parametric_sign_counterexample :
    flowTemp cfgC2 (-5) = 35 ∧
    cfgC2.paramA * (cfgC2.tempInnen - (-5)) + cfgC2.paramB = 55 ∧
    flowTemp cfgC2 (-5) ≠ cfgC2.paramA * (cfgC2.tempInnen - (-5)) + cfgC2.paramB := by
  refine ⟨by norm_num [flowTemp, cfgC2], by norm_num [cfgC2], ?_⟩
  norm_num [flowTemp, cfgC2]

/-- C2 (amended): the engine's parametric curve computes
`-outdoor * a + b` per hour from the current outdoor temperature only;
the historical second variant in the same source file computes
`a * (indoor - outdoor) + b`.  At outdoor −5 °C, indoor 20 °C, `a = 1`,
`b = 30`, they give 35 °C and 55 °C respectively. -/
theorem parametric_flow_conventions (cfg : Config) (tOut : ℚ)
    (hmode : cfg.curveMode = CurveMode.params) :
    flowTemp cfg tOut = - tOut * cfg.paramA + cfg.paramB ∧
    flowTempParamsV2 cfg tOut = cfg.paramA * (cfg.tempInnen - tOut) + cfg.paramB ∧
    flowTemp cfgC2 (-5) = 35 ∧
    flowTempParamsV2 cfgC2 (-5) = 55 := by
  refine ⟨?_, rfl, by norm_num [flowTemp, cfgC2], by norm_num [flowTempParamsV2, cfgC2]⟩
  unfold flowTemp
  rw [hmode]

/-- C2 witness: the convention theorem instantiated at the example
configuration and outdoor −5 °C. -/
theorem parametric_flow_conventions_witness :
    flowTemp cfgC2 (-5) = - (-5) * cfgC2.paramA + cfgC2.paramB ∧
    flowTempParamsV2 cfgC2 (-5) = cfgC2.paramA * (cfgC2.tempInnen - (-5)) + cfgC2.paramB ∧
    flowTemp cfgC2 (-5) = 35 ∧
    flowTempParamsV2 cfgC2 (-5) = 55 :=
  parametric_flow_conventions cfgC2 (-5) rfl

/-- C3: the Carnot COP computation never divides by a zero or negative
span: whenever the absolute flow temperature is at most the absolute
outdoor temperature (including exact equality of the Celsius values) it
returns the sentinel 99999, and otherwise it divides by a strictly
positive denominator. -/
theorem carnot_sentinel_guard (tVorlauf tOut : ℚ) :
    (tVorlauf + 273.15 ≤ tOut + 273.15 → copCarnot tVorlauf tOut = 99999) ∧
    (tVorlauf = tOut → copCarnot tVorlauf tOut = 99999) ∧
    (tOut + 273.15 < tVorlauf + 273.15 →
      copCarnot tVorlauf tOut =
          (tVorlauf + 273.15) / (tVorlauf + 273.15 - (tOut + 273.15)) ∧
        0 < tVorlauf + 273.15 - (tOut + 273.15)) := by
  simp only [copCarnot]
  refine ⟨fun h => if_pos h, fun h => ?_, fun h => ⟨if_neg (not_le.mpr h), by linarith⟩⟩
  subst h
  exact if_pos le_rfl

/-- C3 witness: the sentinel at equal temperatures and the positive-span
division at flow 30 °C over outdoor 20 °C. -/
theorem carnot_sentinel_guard_witness :
    copCarnot 20 20 = 99999 ∧
    (copCarnot 30 20 = (30 + 273.15) / (30 + 273.15 - (20 + 273.15)) ∧
      0 < (30 : ℚ) + 273.15 - (20 + 273.15)) :=
  ⟨(carnot_sentinel_guard 20 20).2.1 rfl,
    (carnot_sentinel_guard 30 20).2.2 (by norm_num)⟩

/-- C4: the real COP is `eff * copCarnot` floored at 1, and the
electrical power is 0 above the 20000 ceiling and `qLoad / copReal`
otherwise. -/
theorem cop_floor_and_ceiling (e cc q : ℚ) :
    copReal e cc = max (e * cc) 1 ∧
    1 ≤ copReal e cc ∧
    (copReal e cc > 20000 → pElec q (copReal e cc) = 0) ∧
    (¬ copReal e cc > 20000 → pElec q (copReal e cc) = q / copReal e cc) := by
  refine ⟨?_, one_le_copReal e cc, fun h => ?_, fun h => ?_⟩
  · simp only [copReal]
    rcases lt_or_le (e * cc) 1 with h | h
    · rw [if_pos h, max_eq_right h.le]
    · rw [if_neg (not_lt.mpr h), max_eq_left h]
  · simp only [pElec]
    rw [if_pos h]
  · simp only [pElec]
    rw [if_neg h]

/-- C4 witness: `copReal (1/2) 10 = 5` takes the division branch, and a
sentinel-sized Carnot COP takes the zero branch. -/
theorem cop_floor_and_ceiling_witness :
    copReal (1/2) 10 = max ((1/2 : ℚ) * 10) 1 ∧
    pElec 7 (copReal (1/2) 10) = 7 / copReal (1/2) 10 ∧
    pElec 7 (copReal (1/2) 99999) = 0 :=
  ⟨(cop_floor_and_ceiling (1/2) 10 7).1,
    (cop_floor_and_ceiling (1/2) 10 7).2.2.2 (by norm_num [copReal]),
    (cop_floor_and_ceiling (1/2) 99999 7).2.2.1 (by norm_num [copReal])⟩

/-- C5: the heating-period predicate encodes dates as
`month * 100 + day` and tests the closed interval when
`start ≤ end` and the wrap-around disjunction when `start > end`. -/
theorem heating_period_encoding (cfg : Config) (month day : ℕ) :
    (cfg.heatStartM * 100 + cfg.heatStartD ≤ cfg.heatEndM * 100 + cfg.heatEndD →
      (checkInHeatingPeriod cfg month day = true ↔
        cfg.heatStartM * 100 + cfg.heatStartD ≤ month * 100 + day ∧
          month * 100 + day ≤ cfg.heatEndM * 100 + cfg.heatEndD)) ∧
    (cfg.heatStartM * 100 + cfg.heatStartD > cfg.heatEndM * 100 + cfg.heatEndD →
      (checkInHeatingPeriod cfg month day = true ↔
        month * 100 + day ≥ cfg.heatStartM * 100 + cfg.heatStartD ∨
          month * 100 + day ≤ cfg.heatEndM * 100 + cfg.heatEndD)) := by
  constructor
  · intro h
    simp only [checkInHeatingPeriod]
    rw [if_pos h]
    simp [ge_iff_le]
  · intro h
    simp only [checkInHeatingPeriod]
    rw [if_neg (by omega)]
    simp [ge_iff_le]

/-- C5 witness: with the wrap-around period Oct 1 – Apr 30, January 15
encodes to 115 and is inside via the `current ≤ end` disjunct. -/
theorem heating_period_encoding_witness :
    checkInHeatingPeriod cfgC5 1 15 = true ↔
      1 * 100 + 15 ≥ cfgC5.heatStartM * 100 + cfgC5.heatStartD ∨
        1 * 100 + 15 ≤ cfgC5.heatEndM * 100 + cfgC5.heatEndD :=
  (heating_period_encoding cfgC5 1 15).2 (by norm_num [cfgC5])

/-- C6: the two-point curve returns the arithmetic mean of the two flow
values whenever the outdoor spread is below 0.001 (in particular when
the two outdoor values coincide, for every outdoor input), and
otherwise the unclamped linear interpolation through the two points. -/
theorem two_point_curve (cfg : Config) (tOut : ℚ)
    (hmode : cfg.curveMode = CurveMode.points) :
    (|cfg.p2Out - cfg.p1Out| < 0.001 →
      flowTemp cfg tOut = (cfg.p1Flow + cfg.p2Flow) / 2) ∧
    (cfg.p1Out = cfg.p2Out →
      flowTemp cfg tOut = (cfg.p1Flow + cfg.p2Flow) / 2) ∧
    (¬ |cfg.p2Out - cfg.p1Out| < 0.001 →
      flowTemp cfg tOut =
        cfg.p1Flow +
          (tOut - cfg.p1Out) * ((cfg.p2Flow - cfg.p1Flow) / (cfg.p2Out - cfg.p1Out))) := by
  unfold flowTemp
  rw [hmode]
  refine ⟨fun h => by rw [if_pos h], fun h => ?_, fun h => by rw [if_neg h]⟩
  rw [if_pos]
  rw [h, sub_self, abs_zero]
  norm_num

/-- C6 witness: the degenerate configuration returns the mean 35 for
outdoor 0 °C, and the non-degenerate configuration interpolates at
outdoor −5 °C. -/
theorem two_point_curve_witness :
    flowTemp cfgC6 0 = (cfgC6.p1Flow + cfgC6.p2Flow) / 2 ∧
    flowTemp cfgC6b (-5) =
      cfgC6b.p1Flow +
        ((-5) - cfgC6b.p1Out) * ((cfgC6b.p2Flow - cfgC6b.p1Flow) / (cfgC6b.p2Out - cfgC6b.p1Out)) :=
  ⟨(two_point_curve cfgC6 0 rfl).2.1 rfl,
    (two_point_curve cfgC6b (-5) rfl).2.2 (by norm_num [cfgC6b])⟩

/-- C7 counterexample: a physics-mode run with `uValue = -1` produces
`electricalEnergyKWh = -1/100 ≠ 0` yet `performanceFactor = 0`, while
`heatKWh / elecKWh = 1`: the engine tests `elecKWh > 0`, not
"denominator nonzero". -/
theorem performance_factor_counterexample :
    calculate cfgC7 [sampleC7] = Except.ok rC7 ∧
    rC7.elecKWh ≠ 0 ∧
    rC7.jaz = 0 ∧
    rC7.jaz ≠ rC7.heatKWh / rC7.elecKWh := by
  refine ⟨?_, by norm_num [rC7], by norm_num [rC7], by norm_num [rC7]⟩
  norm_num [calculate, simulateBody, resolveK, runLoop, loopStep, initState, flowTemp,
    copCarnot, copReal, pElec, checkInHeatingPeriod, sumDegreeHours, cfgC7, sampleC7, rC7]

/-- C7 (amended): the performance factor equals
`heatEnergyKWh / electricalEnergyKWh` when the electrical total is
strictly positive, and is the plain value 0 otherwise — in particular
whenever the electrical total is 0. -/
theorem performance_factor_guard (cfg : Config) (samples : List Sample) (r : SimResult)
    (hr : calculate cfg samples = Except.ok r) :
    (0 < r.elecKWh → r.jaz = r.heatKWh / r.elecKWh) ∧
    (¬ 0 < r.elecKWh → r.jaz = 0) ∧
    (r.elecKWh = 0 → r.jaz = 0) := by
  obtain ⟨k, hk, hTot, hHH, hHeat, hElec, hJaz⟩ := calculate_ok_fields cfg samples r hr
  refine ⟨fun h => ?_, fun h => ?_, fun h => ?_⟩
  · rw [hJaz, if_pos h]
  · rw [hJaz, if_neg h]
  · rw [hJaz, if_neg (by rw [h]; exact lt_irrefl 0)]

/-- C7 witness: the guard instantiated at the negative-coefficient run,
where the electrical total is not positive and the factor is 0. -/
theorem performance_factor_guard_witness :
    rC7.jaz = 0 :=
  (performance_factor_guard cfgC7 [sampleC7] rC7
      (by norm_num [calculate, simulateBody, resolveK, runLoop, loopStep, initState, flowTemp,
        copCarnot, copReal, pElec, checkInHeatingPeriod, sumDegreeHours, cfgC7, sampleC7,
        rC7])).2.1
    (by norm_num [rC7])

/-- C8: inserting a null sample anywhere leaves the whole loop state —
energies, heating hours, maxima — and the calibration sum unchanged,
while a successful run reports `hoursTotal` equal to the input length
and `hoursHeating ≤ hoursTotal`. -/
theorem null_skip_and_hours_bound (cfg : Config) (k : ℚ) (s₁ s₂ : List Sample) (ns : Sample)
    (hns : ns.temp = none) (samples : List Sample) (r : SimResult)
    (hr : calculate cfg samples = Except.ok r) :
    runLoop cfg k (s₁ ++ ns :: s₂) = runLoop cfg k (s₁ ++ s₂) ∧
    sumDegreeHours cfg (s₁ ++ ns :: s₂) = sumDegreeHours cfg (s₁ ++ s₂) ∧
    r.hoursTotal = samples.length ∧
    r.hoursHeating ≤ r.hoursTotal := by
  obtain ⟨k', hk', hTot, hHH, _, _, _⟩ := calculate_ok_fields cfg samples r hr
  refine ⟨?_, ?_, hTot, ?_⟩
  · unfold runLoop
    rw [List.foldl_append, List.foldl_append, List.foldl_cons]
    congr 1
    simp [loopStep, hns]
  · unfold sumDegreeHours
    rw [List.foldl_append, List.foldl_append, List.foldl_cons]
    congr 1
    simp [hns]
  · rw [hHH, hTot]
    unfold runLoop
    have h := foldl_heatHours_le cfg k' samples initState
    simpa [initState] using h

/-- C8 witness: a series consisting of one null sample runs
successfully with `hoursTotal = 1`, `hoursHeating = 0`, and inserting
that null sample into the empty loop changes nothing. -/
theorem null_skip_and_hours_bound_witness :
    runLoop cfgC8 0 ([] ++ nsC8 :: []) = runLoop cfgC8 0 ([] ++ []) ∧
    sumDegreeHours cfgC8 ([] ++ nsC8 :: []) = sumDegreeHours cfgC8 ([] ++ []) ∧
    rC8.hoursTotal = [nsC8].length ∧
    rC8.hoursHeating ≤ rC8.hoursTotal :=
  null_skip_and_hours_bound cfgC8 0 [] [] nsC8 rfl [nsC8] rC8
    (by norm_num [calculate, simulateBody, resolveK, runLoop, loopStep, initState,
      sumDegreeHours, cfgC8, nsC8, rC8])

/-- C9 counterexample: invoked on the empty series the engine fails
with the empty-series error and produces no result at all. -/
theorem empty_series_counterexample :
    calculate cfgC9 [] = Except.error CalcError.emptySeries ∧
    ¬ ∃ r : SimResult, calculate cfgC9 [] = Except.ok r := by
  refine ⟨rfl, ?_⟩
  rintro ⟨r, hr⟩
  rw [show calculate cfgC9 [] = Except.error CalcError.emptySeries from rfl] at hr
  exact absurd hr (by simp)

/-- C9 (amended): on an empty series the engine fails with
`EmptySeries`; only when that guard is bypassed does the physics-mode
body produce `hoursTotal = 0`, no maxima and `performanceFactor = 0`,
while the consumption-mode body still fails with
`InsufficientDataError`. -/
theorem empty_series_behavior (cfg : Config) :
    calculate cfg [] = Except.error CalcError.emptySeries ∧
    (cfg.calcMode = CalcMode.physics →
      simulateBody cfg [] =
        Except.ok
          { hoursTotal := 0, hoursHeating := 0, heatKWh := 0, elecKWh := 0, jaz := 0,
            maxHeatLoadW := 0, maxHeatDate := "-", maxElecLoadW := 0, maxElecDate := "-",
            maxElecTemp := 0 }) ∧
    (cfg.calcMode = CalcMode.consumption →
      simulateBody cfg [] = Except.error CalcError.insufficientData) := by
  refine ⟨rfl, fun h => ?_, fun h => ?_⟩
  · norm_num [simulateBody, resolveK, h, runLoop, initState, sumDegreeHours]
  · norm_num [simulateBody, resolveK, h, sumDegreeHours]

/-- C9 witness: the empty-series behaviour at the concrete physics-mode
configuration. -/
theorem empty_series_behavior_witness :
    calculate cfgC9 [] = Except.error CalcError.emptySeries ∧
    simulateBody cfgC9 [] =
      Except.ok
        { hoursTotal := 0, hoursHeating := 0, heatKWh := 0, elecKWh := 0, jaz := 0,
          maxHeatLoadW := 0, maxHeatDate := "-", maxElecLoadW := 0, maxElecDate := "-",
          maxElecTemp := 0 } :=
  ⟨(empty_series_behavior cfgC9).1, (empty_series_behavior cfgC9).2.1 rfl⟩

/-- C10: with a nonnegative resolved heat-loss coefficient, every
heating hour contributes `pElec ≤ qLoad`, the electrical energy total
never exceeds the heat energy total, and the performance factor is at
least 1 whenever the electrical total is positive. -/
theorem heat_dominates_electricity (cfg : Config) (samples : List Sample) (k : ℚ)
    (hk : resolveK cfg samples = Except.ok k) (hk0 : 0 ≤ k) (r : SimResult)
    (hr : calculate cfg samples = Except.ok r) :
    (∀ tOut : ℚ, tOut < cfg.tempInnen →
      pElec (k * (cfg.tempInnen - tOut)) (copReal cfg.eff (copCarnot (flowTemp cfg tOut) tOut)) ≤
        k * (cfg.tempInnen - tOut)) ∧
    r.elecKWh ≤ r.heatKWh ∧
    (0 < r.elecKWh → 1 ≤ r.jaz) := by
  obtain ⟨k', hk', hTot, hHH, hHeat, hElec, hJaz⟩ := calculate_ok_fields cfg samples r hr
  rw [hk] at hk'
  injection hk' with hk'
  subst hk'
  have hle : r.elecKWh ≤ r.heatKWh := by
    rw [hHeat, hElec]
    have h := foldl_elec_le_heat cfg k hk0 samples initState (by norm_num [initState])
    unfold runLoop
    gcongr
  refine ⟨fun t ht => ?_, hle, fun hpos => ?_⟩
  · exact pElec_le_qLoad _ _ (mul_nonneg hk0 (by linarith)) (one_le_copReal _ _)
  · rw [hJaz, if_pos hpos]
    rw [one_le_div hpos]
    exact hle

/-- C10 witness: the dominance facts at the concrete run with
`kLoad = 50`, where both energy totals are 1/2 kWh and the factor
is 1. -/
theorem heat_dominates_electricity_witness :
    rC10.elecKWh ≤ rC10.heatKWh ∧ 1 ≤ rC10.jaz :=
  have h := heat_dominates_electricity cfgC10 [sampleC10] 50
    (by norm_num [resolveK, cfgC10]) (by norm_num) rC10
    (by norm_num [calculate, simulateBody, resolveK, runLoop, loopStep, initState, flowTemp,
      copCarnot, copReal, pElec, checkInHeatingPeriod, sumDegreeHours, cfgC10, sampleC10, rC10])
  ⟨h.2.1, h.2.2 (by norm_num [rC10])⟩

end HeatPump
